import Mathlib

/-!
Shallow embedding of the scenario-projection and macro-impact engine of
`src/src/App.js` (RUPACAYA educational investment calculator).

The source reads `modal`, `months` and `investors` from digit-only input
strings (`Number(onlyDigits(...))`), so those three inputs are natural
numbers; all arithmetic is modelled over the reals.  `calcAll` mutates two
pieces of React state (`result`, `impact`) and returns early when a
precondition fails; we model it as a state transformer on `CalcState`.
-/

namespace Rupacaya

/-- The five enumerated instruments (keys of the `base` table in the source). -/
inductive Instrument : Type
  | saham
  | obligasi
  | deposito
  | emas
  | reksadana
deriving DecidableEq

/-- A triple of monthly fractional rates, `{opt, mod, pes}` in the source. -/
structure Rates where
  opt : ℝ
  mod : ℝ
  pes : ℝ

noncomputable section

/-- Constant `macro.trxHarianBEI` — daily turnover reference, Rp 25_020_000_000_000. -/
def trxHarianBEI : ℝ := 25020000000000

/-- The `base` rate table of the source (per-month, per instrument). -/
def base : Instrument → Rates
  | .saham => ⟨0.015, 0.008, -0.01⟩
  | .obligasi => ⟨0.007, 0.004, -0.003⟩
  | .deposito => ⟨0.004, 0.003, 0.002⟩
  | .emas => ⟨0.006, 0.004, 0.0002⟩
  | .reksadana => ⟨0.012, 0.006, -0.007⟩

/-- The three what-if toggles (`adj` state in the source). -/
structure Adj where
  inflasiUp : Bool
  biDown : Bool
  ihsgUp : Bool
deriving DecidableEq

/-- Per-instrument delta applied when `adj.inflasiUp` is on
(the first `if` block of `adjustedRatesFor`). -/
def dInflasiUp : Instrument → ℝ
  | .saham => -0.002
  | .obligasi => -0.001
  | .deposito => 0.0005
  | .emas => 0.001
  | .reksadana => -0.001

/-- Per-instrument delta applied when `adj.biDown` is on
(the second `if` block of `adjustedRatesFor`). -/
def dBiDown : Instrument → ℝ
  | .saham => 0.0015
  | .obligasi => 0.001
  | .deposito => -0.0004
  | .emas => 0.0002
  | .reksadana => 0.001

/-- Per-instrument delta applied when `adj.ihsgUp` is on
(the third `if` block of `adjustedRatesFor`; instruments without a branch
receive zero). -/
def dIhsgUp : Instrument → ℝ
  | .saham => 0.002
  | .reksadana => 0.0015
  | .emas => -0.0005
  | _ => 0

/-- The running scalar `d` of `adjustedRatesFor`: the source accumulates the
per-toggle deltas with `d += ...` / `d -= ...`, which is the sum of the
deltas of the active toggles. -/
def totalDelta (adj : Adj) (type : Instrument) : ℝ :=
  (if adj.inflasiUp then dInflasiUp type else 0)
    + (if adj.biDown then dBiDown type else 0)
    + (if adj.ihsgUp then dIhsgUp type else 0)

/-- Function `adjustedRatesFor` on a known instrument:
`{opt: b.opt + d, mod: b.mod + d, pes: b.pes + d * 0.5}`. -/
def adjustedRatesFor (adj : Adj) (type : Instrument) : Rates :=
  let b := base type
  let d := totalDelta adj type
  ⟨b.opt + d, b.mod + d, b.pes + d * 0.5⟩

/-- Lookup of the instrument key: `base[type]` is defined exactly for the
five enumerated keys; any other string yields `undefined` (here `none`). -/
def instrOfString : String → Option Instrument
  | "saham" => some .saham
  | "obligasi" => some .obligasi
  | "deposito" => some .deposito
  | "emas" => some .emas
  | "reksadana" => some .reksadana
  | _ => none

/-- Function `adjustedRatesFor` as in the source, keyed by the instrument string:
`const b = base[type]; if (!b) return null; ...`. -/
def adjustedRatesForStr (adj : Adj) (type : String) : Option Rates :=
  (instrOfString type).map (adjustedRatesFor adj)

/-- The `result` object set by `calcAll`. -/
structure ScenarioResult where
  optV : ℝ
  modV : ℝ
  pesV : ℝ
  monthlyModeratePct : ℝ
  annualModerate : ℝ

/-- The `impact` object set by `calcAll`. -/
structure ImpactResult where
  totalDana : ℝ
  impactPct : ℝ

/-- The two pieces of state written by `calcAll` (`result`, `impact`);
`none` models the initial `null`. -/
structure CalcState where
  result : Option ScenarioResult
  impact : Option ImpactResult

/-- Local `grow(rate) = modal * Math.pow(1 + rate, months)` (months is an
integer, so `Math.pow` is the ordinary monoid power). -/
def grow (modal : ℕ) (rate : ℝ) (months : ℕ) : ℝ :=
  (modal : ℝ) * (1 + rate) ^ months

/-- Function `calcAll`: the source returns early (leaving `result`/`impact` as they
were) when `adjustedRatesFor(investment)` is `null` or `modal`/`months` is
falsy (i.e. zero, both being digit-string numbers); otherwise it sets both
state fields from the formulas.  `monthlyModeratePct` uses the real power
`Math.pow(modV / modal, 1 / months)`, modelled with `Real.rpow`. -/
def calcAll (adj : Adj) (investment : String) (modal months investors : ℕ)
    (st : CalcState) : CalcState :=
  match adjustedRatesForStr adj investment with
  | none => st
  | some r =>
    if modal = 0 ∨ months = 0 then st
    else
      let optV := grow modal r.opt months
      let modV := grow modal r.mod months
      let pesV := grow modal r.pes months
      let monthlyModeratePct :=
        ((modV / (modal : ℝ)) ^ ((1 : ℝ) / (months : ℝ)) - 1) * 100
      let annualModerate := ((1 + r.mod) ^ (12 : ℕ) - 1) * 100
      let totalDana := (investors : ℝ) * (modal : ℝ)
      let impactPct := 8 * (totalDana / trxHarianBEI)
      { result := some ⟨optV, modV, pesV, monthlyModeratePct, annualModerate⟩,
        impact := some ⟨totalDana, impactPct⟩ }

/-- The correlation-curve points: empty when `modal` or `investors` is zero,
otherwise ten points for `i = 1..10`, with `frac = i/10`,
`inv = investors * frac`, `totalDana = inv * modal`,
`yPct = 8 * (totalDana / trxHarianBEI)`, clamped as `Math.max(0, yPct)`. -/
def corrPoints (modal investors : ℕ) : List (ℝ × ℝ) :=
  if modal = 0 ∨ investors = 0 then []
  else
    (List.range 10).map fun j =>
      let frac : ℝ := ((j + 1 : ℕ) : ℝ) / 10
      let inv : ℝ := (investors : ℝ) * frac
      let totalDana : ℝ := inv * (modal : ℝ)
      let yPct : ℝ := 8 * (totalDana / trxHarianBEI)
      (inv, max 0 yPct)

/-- The same curve without the `Math.max(0, ·)` clamp on the y value, used
to show the clamp is unreachable. -/
def corrPointsRaw (modal investors : ℕ) : List (ℝ × ℝ) :=
  if modal = 0 ∨ investors = 0 then []
  else
    (List.range 10).map fun j =>
      let frac : ℝ := ((j + 1 : ℕ) : ℝ) / 10
      let inv : ℝ := (investors : ℝ) * frac
      let totalDana : ℝ := inv * (modal : ℝ)
      let yPct : ℝ := 8 * (totalDana / trxHarianBEI)
      (inv, yPct)

/-- Aggregate `totalDana = modalValue * investorCount` of the inflation block. -/
def totalDanaOf (modal investors : ℕ) : ℝ := (modal : ℝ) * (investors : ℝ)

/-- Conversion `totalDanaTriliun = totalDana / 1_000_000_000_000`. -/
def totalDanaTriliun (modal investors : ℕ) : ℝ :=
  totalDanaOf modal investors / 1000000000000

/-- Guarded ratio `ratioDanaPdb = pdb > 0 ? totalDanaTriliun / pdb : 0`. -/
def ratioDanaPdb (modal investors : ℕ) (pdb : ℝ) : ℝ :=
  if 0 < pdb then totalDanaTriliun modal investors / pdb else 0

/-- Formula `tambahanInflasi = k * (1 - porsiProduktif) * ratioDanaPdb * 100`;
the source fixes `k = 0.05`, kept as a parameter to state the contract for
every sensitivity. -/
def tambahanInflasi (k porsiProduktif : ℝ) (modal investors : ℕ)
    (pdb : ℝ) : ℝ :=
  k * (1 - porsiProduktif) * ratioDanaPdb modal investors pdb * 100

/-- Formula `inflasiSimulasi = inflasiAwal + tambahanInflasi`; the source fixes
`inflasiAwal = 2.65`, kept as a parameter. -/
def inflasiSimulasi (inflasiAwal k porsiProduktif : ℝ)
    (modal investors : ℕ) (pdb : ℝ) : ℝ :=
  inflasiAwal + tambahanInflasi k porsiProduktif modal investors pdb

/-- The source's fixed sensitivity coefficient `k`. -/
def kDefault : ℝ := 0.05

/-- The source's fixed baseline annual inflation `inflasiAwal`. -/
def inflasiAwalDefault : ℝ := 2.65

end

/-! Helper lemmas shared by the claim theorems. -/

/-- Unfolding lemma for the success path of `calcAll`. -/
theorem calcAll_run (adj : Adj) (s : String) (modal months investors : ℕ)
    (st : CalcState) (r : Rates)
    (hr : adjustedRatesForStr adj s = some r)
    (hm : modal ≠ 0) (hd : months ≠ 0) :
    calcAll adj s modal months investors st =
      { result := some ⟨grow modal r.opt months, grow modal r.mod months,
          grow modal r.pes months,
          ((grow modal r.mod months / (modal : ℝ)) ^ ((1 : ℝ) / (months : ℝ))
            - 1) * 100,
          ((1 + r.mod) ^ (12 : ℕ) - 1) * 100⟩,
        impact := some ⟨(investors : ℝ) * (modal : ℝ),
          8 * ((investors : ℝ) * (modal : ℝ) / trxHarianBEI)⟩ } := by
  unfold calcAll
  rw [hr]
  simp [hm, hd]

/-- C5: when a precondition fails (unknown instrument so `adjustedRatesFor`
returns null, or `modal` not positive, or `months` not at least 1),
`calcAll` performs no computation: the stored `result` and `impact` state is
returned unchanged. -/
theorem calcAll_noop_on_precondition_failure (adj : Adj) (s : String)
    (modal months investors : ℕ) (st : CalcState)
    (h : instrOfString s = none ∨ ¬ 0 < modal ∨ ¬ 1 ≤ months) :
    calcAll adj s modal months investors st = st := by
  have h2 : adjustedRatesForStr adj s = none ∨ modal = 0 ∨ months = 0 := by
    rcases h with h | h | h
    · exact Or.inl (by simp [adjustedRatesForStr, h])
    · exact Or.inr (Or.inl (by omega))
    · exact Or.inr (Or.inr (by omega))
  rcases h3 : adjustedRatesForStr adj s with _ | r
  · unfold calcAll
    rw [h3]
  · unfold calcAll
    rw [h3]
    have h4 : modal = 0 ∨ months = 0 := by
      rcases h2 with h2 | h2
      · rw [h3] at h2; cases h2
      · exact h2
    simp [h4]

/-- Witness for C5 at a concrete unknown-instrument input. -/
theorem calcAll_noop_on_precondition_failure_witness :
    calcAll ⟨false, false, false⟩ "kripto" 5 3 1 ⟨none, none⟩ = ⟨none, none⟩ :=
  calcAll_noop_on_precondition_failure ⟨false, false, false⟩ "kripto" 5 3 1
    ⟨none, none⟩ (Or.inl rfl)

/-- C2: for every known instrument and toggle combination, the adjusted
rates are `opt + d`, `mod + d`, `pes + d * 0.5` with `d` the sum of the
active toggles' per-instrument deltas; hence the pessimistic delta is half
the moderate delta, and with all toggles off the adjusted rates equal the
base rates exactly. -/
theorem adjustedRatesFor_delta_structure (adj : Adj) (i : Instrument) :
    adjustedRatesFor adj i =
      ⟨(base i).opt + totalDelta adj i, (base i).mod + totalDelta adj i,
        (base i).pes + totalDelta adj i * 0.5⟩ ∧
    (adjustedRatesFor adj i).pes - (base i).pes
      = 0.5 * ((adjustedRatesFor adj i).mod - (base i).mod) ∧
    adjustedRatesFor ⟨false, false, false⟩ i = base i := by
  refine ⟨rfl, ?_, ?_⟩
  · simp only [adjustedRatesFor]
    ring
  · simp [adjustedRatesFor, totalDelta]

/-- C1: on the success path the three scenario values are
`modal * (1 + rate) ^ months` for the adjusted opt/mod/pes rates, and for
`months = 1` each value is exactly `modal * (1 + rate)`. -/
theorem calcAll_scenario_values (adj : Adj) (s : String)
    (modal months investors : ℕ) (st : CalcState) (r : Rates)
    (hr : adjustedRatesForStr adj s = some r)
    (hm : 0 < modal) (hd : 1 ≤ months) :
    ∃ res : ScenarioResult,
      (calcAll adj s modal months investors st).result = some res ∧
      res.optV = (modal : ℝ) * (1 + r.opt) ^ months ∧
      res.modV = (modal : ℝ) * (1 + r.mod) ^ months ∧
      res.pesV = (modal : ℝ) * (1 + r.pes) ^ months ∧
      (months = 1 →
        res.optV = (modal : ℝ) * (1 + r.opt) ∧
        res.modV = (modal : ℝ) * (1 + r.mod) ∧
        res.pesV = (modal : ℝ) * (1 + r.pes)) := by
  rw [calcAll_run adj s modal months investors st r hr (by omega) (by omega)]
  refine ⟨_, rfl, rfl, rfl, rfl, ?_⟩
  rintro rfl
  simp [grow]

/-- Witness for C1: saham, no toggles, modal 1000000, one month. -/
theorem calcAll_scenario_values_witness :
    (0 : ℕ) < 1000000 ∧ (1 : ℕ) ≤ 1 ∧
    ∃ res : ScenarioResult,
      (calcAll ⟨false, false, false⟩ "saham" 1000000 1 18000000
        ⟨none, none⟩).result = some res ∧
      res.optV = ((1000000 : ℕ) : ℝ)
        * (1 + (adjustedRatesFor ⟨false, false, false⟩ .saham).opt) ^ (1 : ℕ) ∧
      res.modV = ((1000000 : ℕ) : ℝ)
        * (1 + (adjustedRatesFor ⟨false, false, false⟩ .saham).mod) ^ (1 : ℕ) ∧
      res.pesV = ((1000000 : ℕ) : ℝ)
        * (1 + (adjustedRatesFor ⟨false, false, false⟩ .saham).pes) ^ (1 : ℕ) ∧
      ((1 : ℕ) = 1 →
        res.optV = ((1000000 : ℕ) : ℝ)
          * (1 + (adjustedRatesFor ⟨false, false, false⟩ .saham).opt) ∧
        res.modV = ((1000000 : ℕ) : ℝ)
          * (1 + (adjustedRatesFor ⟨false, false, false⟩ .saham).mod) ∧
        res.pesV = ((1000000 : ℕ) : ℝ)
          * (1 + (adjustedRatesFor ⟨false, false, false⟩ .saham).pes)) :=
  ⟨by norm_num, le_refl 1,
    calcAll_scenario_values ⟨false, false, false⟩ "saham" 1000000 1 18000000
      ⟨none, none⟩ (adjustedRatesFor ⟨false, false, false⟩ .saham) rfl
      (by norm_num) (le_refl 1)⟩

/-- The turnover reference `trxHarianBEI` is positive. -/
theorem trxHarianBEI_pos : (0 : ℝ) < trxHarianBEI := by
  norm_num [trxHarianBEI]

/-- C3: the function `calcAll` stores `totalDana = investors * modal` and
`impactPct = 8 * (totalDana / trxHarianBEI)`, and the headline impact
percentage is uncapped: every bound is exceeded by some positive inputs. -/
theorem impact_formula_unbounded :
    (∀ (adj : Adj) (s : String) (modal months investors : ℕ) (st : CalcState)
      (r : Rates), adjustedRatesForStr adj s = some r → 0 < modal →
      1 ≤ months →
      ∃ imp : ImpactResult,
        (calcAll adj s modal months investors st).impact = some imp ∧
        imp.totalDana = (investors : ℝ) * (modal : ℝ) ∧
        imp.impactPct = 8 * (imp.totalDana / trxHarianBEI)) ∧
    (∀ B : ℝ, ∃ modal investors : ℕ, 0 < modal ∧ 0 < investors ∧
      B < 8 * ((investors : ℝ) * (modal : ℝ) / trxHarianBEI)) := by
  constructor
  · intro adj s modal months investors st r hr hm hd
    rw [calcAll_run adj s modal months investors st r hr (by omega) (by omega)]
    exact ⟨_, rfl, rfl, rfl⟩
  · intro B
    refine ⟨⌈B * trxHarianBEI / 8⌉₊ + 1, 1, Nat.succ_pos _, Nat.one_pos, ?_⟩
    have hT : (0 : ℝ) < trxHarianBEI := trxHarianBEI_pos
    have h1 : B * trxHarianBEI / 8 < ((⌈B * trxHarianBEI / 8⌉₊ + 1 : ℕ) : ℝ) := by
      push_cast
      have := Nat.le_ceil (B * trxHarianBEI / 8)
      linarith
    rw [Nat.cast_one, one_mul, ← mul_div_assoc, lt_div_iff₀ hT]
    linarith

/-- Witness for C3's formula half at a concrete input. -/
theorem impact_formula_unbounded_witness :
    ∃ imp : ImpactResult,
      (calcAll ⟨false, false, false⟩ "emas" 1000000 12 18000000
        ⟨none, none⟩).impact = some imp ∧
      imp.totalDana = ((18000000 : ℕ) : ℝ) * ((1000000 : ℕ) : ℝ) ∧
      imp.impactPct = 8 * (imp.totalDana / trxHarianBEI) :=
  impact_formula_unbounded.1 ⟨false, false, false⟩ "emas" 1000000 12 18000000
    ⟨none, none⟩ (adjustedRatesFor ⟨false, false, false⟩ .emas) rfl
    (by norm_num) (by norm_num)

/-- C4: the inflation feedback estimator is total: `ratioDanaPdb` is the
trillion-scaled aggregate over GDP when GDP is positive and 0 otherwise
(so the additional inflation is 0 and the simulated inflation is the
baseline when GDP is nonpositive); `tambahanInflasi` and `inflasiSimulasi`
follow the stated formulas. -/
theorem inflation_estimator_total (k ps pdb baseline : ℝ)
    (modal investors : ℕ) :
    (0 < pdb →
      ratioDanaPdb modal investors pdb
        = ((modal : ℝ) * (investors : ℝ) / 1000000000000) / pdb) ∧
    (pdb ≤ 0 →
      ratioDanaPdb modal investors pdb = 0 ∧
      tambahanInflasi k ps modal investors pdb = 0 ∧
      inflasiSimulasi baseline k ps modal investors pdb = baseline) ∧
    tambahanInflasi k ps modal investors pdb
      = k * (1 - ps) * ratioDanaPdb modal investors pdb * 100 ∧
    inflasiSimulasi baseline k ps modal investors pdb
      = baseline + tambahanInflasi k ps modal investors pdb := by
  refine ⟨?_, ?_, rfl, rfl⟩
  · intro h
    simp [ratioDanaPdb, totalDanaTriliun, totalDanaOf, h]
  · intro h
    have h0 : ¬ 0 < pdb := not_lt.mpr h
    refine ⟨by simp [ratioDanaPdb, h0], ?_, ?_⟩
    · simp [tambahanInflasi, ratioDanaPdb, h0]
    · simp [inflasiSimulasi, tambahanInflasi, ratioDanaPdb, h0]

/-- Witness for C4 at GDP = 0 with the source's fixed constants. -/
theorem inflation_estimator_total_witness :
    ratioDanaPdb 1000000 18000000 0 = 0 ∧
    tambahanInflasi kDefault 0.7 1000000 18000000 0 = 0 ∧
    inflasiSimulasi inflasiAwalDefault kDefault 0.7 1000000 18000000 0
      = inflasiAwalDefault :=
  (inflation_estimator_total kDefault 0.7 0 inflasiAwalDefault
    1000000 18000000).2.1 (le_refl 0)

/-- C6: the field `annualModerate` equals `((1 + moderateRate) ^ 12 − 1) * 100` computed from
the adjusted moderate rate itself, so two runs differing only in
`durationMonths` produce the same `annualModerate`. -/
theorem annualModerate_duration_independent (adj : Adj) (s : String)
    (modal m1 m2 investors : ℕ) (st1 st2 : CalcState) (r : Rates)
    (hr : adjustedRatesForStr adj s = some r)
    (hm : 0 < modal) (h1 : 1 ≤ m1) (h2 : 1 ≤ m2) :
    ∃ res1 res2 : ScenarioResult,
      (calcAll adj s modal m1 investors st1).result = some res1 ∧
      (calcAll adj s modal m2 investors st2).result = some res2 ∧
      res1.annualModerate = ((1 + r.mod) ^ (12 : ℕ) - 1) * 100 ∧
      res2.annualModerate = res1.annualModerate := by
  rw [calcAll_run adj s modal m1 investors st1 r hr (by omega) (by omega),
    calcAll_run adj s modal m2 investors st2 r hr (by omega) (by omega)]
  exact ⟨_, _, rfl, rfl, rfl, rfl⟩

/-- Witness for C6: saham with durations 1 and 24. -/
theorem annualModerate_duration_independent_witness :
    ∃ res1 res2 : ScenarioResult,
      (calcAll ⟨false, false, false⟩ "saham" 1000000 1 18000000
        ⟨none, none⟩).result = some res1 ∧
      (calcAll ⟨false, false, false⟩ "saham" 1000000 24 18000000
        ⟨none, none⟩).result = some res2 ∧
      res1.annualModerate
        = ((1 + (adjustedRatesFor ⟨false, false, false⟩ .saham).mod)
            ^ (12 : ℕ) - 1) * 100 ∧
      res2.annualModerate = res1.annualModerate :=
  annualModerate_duration_independent ⟨false, false, false⟩ "saham"
    1000000 1 24 18000000 ⟨none, none⟩ ⟨none, none⟩
    (adjustedRatesFor ⟨false, false, false⟩ .saham) rfl
    (by norm_num) (by norm_num) (by norm_num)

/-- C7: the derived monthly rate is the exact inverse of the compounding
formula: in exact real arithmetic `monthlyModeratePct` equals
`mod' * 100` whenever `modal > 0`, `months ≥ 1` and `mod' > −1`. -/
theorem monthlyModeratePct_roundtrip (adj : Adj) (s : String)
    (modal months investors : ℕ) (st : CalcState) (r : Rates)
    (hr : adjustedRatesForStr adj s = some r)
    (hm : 0 < modal) (hd : 1 ≤ months) (hrate : -1 < r.mod) :
    ∃ res : ScenarioResult,
      (calcAll adj s modal months investors st).result = some res ∧
      res.monthlyModeratePct
        = ((res.modV / (modal : ℝ)) ^ ((1 : ℝ) / (months : ℝ)) - 1) * 100 ∧
      res.monthlyModeratePct = r.mod * 100 := by
  rw [calcAll_run adj s modal months investors st r hr (by omega) (by omega)]
  refine ⟨_, rfl, rfl, ?_⟩
  have hmodal : ((modal : ℕ) : ℝ) ≠ 0 := Nat.cast_ne_zero.mpr (by omega)
  have hmonths : ((months : ℕ) : ℝ) ≠ 0 := Nat.cast_ne_zero.mpr (by omega)
  have hbase : (0 : ℝ) ≤ 1 + r.mod := by linarith
  show ((grow modal r.mod months / (modal : ℝ)) ^ ((1 : ℝ) / (months : ℝ))
    - 1) * 100 = r.mod * 100
  rw [grow, mul_div_cancel_left₀ _ hmodal, ← Real.rpow_natCast (1 + r.mod) months,
    ← Real.rpow_mul hbase, mul_one_div, div_self hmonths, Real.rpow_one]
  ring

/-- Witness for C7: saham, no toggles, modal 1000000, 7 months. -/
theorem monthlyModeratePct_roundtrip_witness :
    ∃ res : ScenarioResult,
      (calcAll ⟨false, false, false⟩ "saham" 1000000 7 18000000
        ⟨none, none⟩).result = some res ∧
      res.monthlyModeratePct
        = ((res.modV / ((1000000 : ℕ) : ℝ)) ^ ((1 : ℝ) / ((7 : ℕ) : ℝ))
            - 1) * 100 ∧
      res.monthlyModeratePct
        = (adjustedRatesFor ⟨false, false, false⟩ .saham).mod * 100 :=
  monthlyModeratePct_roundtrip ⟨false, false, false⟩ "saham" 1000000 7
    18000000 ⟨none, none⟩ (adjustedRatesFor ⟨false, false, false⟩ .saham) rfl
    (by norm_num) (by norm_num)
    (by norm_num [adjustedRatesFor, totalDelta, base, dInflasiUp, dBiDown,
      dIhsgUp])

/-- Every adjusted rate (over all five instruments and all eight toggle
combinations) stays strictly above −1, so `1 + rate` is positive. -/
theorem one_add_adjusted_pos (adj : Adj) (i : Instrument) :
    0 < 1 + (adjustedRatesFor adj i).opt ∧
    0 < 1 + (adjustedRatesFor adj i).mod ∧
    0 < 1 + (adjustedRatesFor adj i).pes := by
  obtain ⟨a, b, c⟩ := adj
  cases a <;> cases b <;> cases c <;> cases i <;>
    norm_num [adjustedRatesFor, totalDelta, base, dInflasiUp, dBiDown, dIhsgUp]

/-- C8: for a fixed known instrument, toggle combination and duration, each
of the three projected scenario values is strictly increasing in the
principal. -/
theorem scenario_values_strict_mono (adj : Adj) (s : String) (i : Instrument)
    (months investors1 investors2 p1 p2 : ℕ) (st1 st2 : CalcState)
    (hi : instrOfString s = some i) (hd : 1 ≤ months)
    (hp1 : 0 < p1) (hp12 : p1 < p2) :
    ∃ res1 res2 : ScenarioResult,
      (calcAll adj s p1 months investors1 st1).result = some res1 ∧
      (calcAll adj s p2 months investors2 st2).result = some res2 ∧
      res1.optV < res2.optV ∧ res1.modV < res2.modV ∧
      res1.pesV < res2.pesV := by
  have hr : adjustedRatesForStr adj s = some (adjustedRatesFor adj i) := by
    simp [adjustedRatesForStr, hi]
  rw [calcAll_run adj s p1 months investors1 st1 _ hr (by omega) (by omega),
    calcAll_run adj s p2 months investors2 st2 _ hr (by omega) (by omega)]
  obtain ⟨ho, hmo, hp⟩ := one_add_adjusted_pos adj i
  have hcast : ((p1 : ℕ) : ℝ) < ((p2 : ℕ) : ℝ) := by exact_mod_cast hp12
  refine ⟨_, _, rfl, rfl, ?_, ?_, ?_⟩
  · exact mul_lt_mul_of_pos_right hcast (pow_pos ho months)
  · exact mul_lt_mul_of_pos_right hcast (pow_pos hmo months)
  · exact mul_lt_mul_of_pos_right hcast (pow_pos hp months)

/-- Witness for C8: saham, no toggles, principals 1000 < 2000, 12 months. -/
theorem scenario_values_strict_mono_witness :
    ∃ res1 res2 : ScenarioResult,
      (calcAll ⟨false, false, false⟩ "saham" 1000 12 18000000
        ⟨none, none⟩).result = some res1 ∧
      (calcAll ⟨false, false, false⟩ "saham" 2000 12 18000000
        ⟨none, none⟩).result = some res2 ∧
      res1.optV < res2.optV ∧ res1.modV < res2.modV ∧
      res1.pesV < res2.pesV :=
  scenario_values_strict_mono ⟨false, false, false⟩ "saham" .saham 12
    18000000 18000000 1000 2000 ⟨none, none⟩ ⟨none, none⟩ rfl
    (by norm_num) (by norm_num) (by norm_num)

/-- The j-th correlation point (0-based), in the non-degenerate case. -/
theorem corrPoints_getD (modal investors : ℕ) (hm : modal ≠ 0)
    (hi : investors ≠ 0) (j : ℕ) (hj : j < 10) :
    (corrPoints modal investors).getD j (0, 0)
      = ((investors : ℝ) * (((j + 1 : ℕ) : ℝ) / 10),
         max 0 (8 * ((investors : ℝ) * (((j + 1 : ℕ) : ℝ) / 10) * (modal : ℝ)
           / trxHarianBEI))) := by
  unfold corrPoints
  rw [if_neg (by tauto)]
  rw [List.getD_eq_getElem?_getD, List.getElem?_map, List.getElem?_range hj]
  rfl

/-- C9: for positive `modal` and `investors` the correlation curve has
exactly ten points, whose x-coordinates sample 10%, 20%, ..., 100% of
`investors`, and both coordinates are non-decreasing along the curve; the
curve is empty when `modal` or `investors` is zero. -/
theorem corrPoints_shape_monotone (modal investors : ℕ) :
    ((modal = 0 ∨ investors = 0) → corrPoints modal investors = []) ∧
    (0 < modal → 0 < investors →
      (corrPoints modal investors).length = 10 ∧
      (∀ j : ℕ, j < 10 →
        ((corrPoints modal investors).getD j (0, 0)).1
          = (investors : ℝ) * (((j + 1 : ℕ) : ℝ) / 10)) ∧
      (∀ j k : ℕ, j ≤ k → k < 10 →
        ((corrPoints modal investors).getD j (0, 0)).1
            ≤ ((corrPoints modal investors).getD k (0, 0)).1 ∧
        ((corrPoints modal investors).getD j (0, 0)).2
            ≤ ((corrPoints modal investors).getD k (0, 0)).2)) := by
  constructor
  · intro h
    unfold corrPoints
    rw [if_pos h]
  · intro hm hi
    have hm' : modal ≠ 0 := by omega
    have hi' : investors ≠ 0 := by omega
    refine ⟨?_, ?_, ?_⟩
    · unfold corrPoints
      rw [if_neg (by tauto)]
      simp
    · intro j hj
      rw [corrPoints_getD modal investors hm' hi' j hj]
    · intro j k hjk hk
      rw [corrPoints_getD modal investors hm' hi' j (lt_of_le_of_lt hjk hk),
        corrPoints_getD modal investors hm' hi' k hk]
      have hj1 : ((j + 1 : ℕ) : ℝ) ≤ ((k + 1 : ℕ) : ℝ) := by
        exact_mod_cast Nat.succ_le_succ hjk
      have hfrac : ((j + 1 : ℕ) : ℝ) / 10 ≤ ((k + 1 : ℕ) : ℝ) / 10 :=
        (div_le_div_iff_of_pos_right (by norm_num)).mpr hj1
      have hx : (investors : ℝ) * (((j + 1 : ℕ) : ℝ) / 10)
          ≤ (investors : ℝ) * (((k + 1 : ℕ) : ℝ) / 10) :=
        mul_le_mul_of_nonneg_left hfrac (Nat.cast_nonneg investors)
      refine ⟨hx, ?_⟩
      refine max_le_max (le_refl 0) ?_
      refine mul_le_mul_of_nonneg_left ?_ (by norm_num)
      exact (div_le_div_iff_of_pos_right trxHarianBEI_pos).mpr
        (mul_le_mul_of_nonneg_right hx (Nat.cast_nonneg modal))

/-- Witness for C9: the empty and the ten-point branch at concrete inputs. -/
theorem corrPoints_shape_monotone_witness :
    corrPoints 0 18000000 = [] ∧ (corrPoints 1000000 18000000).length = 10 :=
  ⟨(corrPoints_shape_monotone 0 18000000).1 (Or.inl rfl),
   ((corrPoints_shape_monotone 1000000 18000000).2 (by norm_num)
     (by norm_num)).1⟩

/-- C10: for positive `modal` and `investors` every sampled y value is
already strictly positive before the `Math.max(0, ·)` clamp, so the curve
coincides with the unclamped curve: the clamp is unreachable. -/
theorem corrPoints_clamp_unreachable (modal investors : ℕ)
    (hm : 0 < modal) (hi : 0 < investors) :
    corrPoints modal investors = corrPointsRaw modal investors ∧
    ∀ p ∈ corrPointsRaw modal investors, 0 < p.2 := by
  have hm' : (0 : ℝ) < (modal : ℝ) := by exact_mod_cast hm
  have hi' : (0 : ℝ) < (investors : ℝ) := by exact_mod_cast hi
  have hy : ∀ j : ℕ,
      0 < 8 * ((investors : ℝ) * (((j + 1 : ℕ) : ℝ) / 10) * (modal : ℝ)
        / trxHarianBEI) := by
    intro j
    have hj : (0 : ℝ) < ((j + 1 : ℕ) : ℝ) := by exact_mod_cast Nat.succ_pos j
    have h1 : (0 : ℝ) < (investors : ℝ) * (((j + 1 : ℕ) : ℝ) / 10)
        * (modal : ℝ) :=
      mul_pos (mul_pos hi' (div_pos hj (by norm_num))) hm'
    exact mul_pos (by norm_num) (div_pos h1 trxHarianBEI_pos)
  have hne : ¬ (modal = 0 ∨ investors = 0) := by omega
  constructor
  · unfold corrPoints corrPointsRaw
    rw [if_neg hne, if_neg hne]
    refine List.map_congr_left ?_
    intro j hj
    simp only [Prod.mk.injEq]
    exact ⟨trivial, max_eq_right (le_of_lt (hy j))⟩
  · intro p hp
    unfold corrPointsRaw at hp
    rw [if_neg hne] at hp
    simp only [List.mem_map] at hp
    obtain ⟨j, hj, rfl⟩ := hp
    exact hy j

/-- Witness for C10 at modal = 1000000, investors = 18000000. -/
theorem corrPoints_clamp_unreachable_witness :
    corrPoints 1000000 18000000 = corrPointsRaw 1000000 18000000 ∧
    ∀ p ∈ corrPointsRaw 1000000 18000000, 0 < p.2 :=
  corrPoints_clamp_unreachable 1000000 18000000 (by norm_num) (by norm_num)

end Rupacaya
